import Mathlib

/-
A shallow embedding of the admission-control core of
`concurrency_manager.py` and of the request-handling logic of `app.py`
from the replicate-concurrent-generation service.

Modelling conventions:
* time instants (Python `datetime.now()`) are rationals, measured in
  seconds, passed in explicitly as `now` parameters;
* `threading.Semaphore` instances are entries of a heap of natural
  number counters (`SemHeap`), so that semaphore *instance identity*
  (on which `configure` relies when it replaces the gate) is
  expressible;
* blocking waits are modelled by fuel (`checkRateLimit`) or by an
  `Option` result (`none` = the sequential caller would block forever
  or run out of fuel);
* Python exceptions are `Except` errors.
-/

/-! ### Rate window (`ThreadSafeConcurrencyManager._check_rate_limit`) -/

/-- The pruning step of `_check_rate_limit`:
`self.request_times = [t for t in self.request_times if t > one_minute_ago]`
with `one_minute_ago = now - timedelta(minutes=1)`. -/
def pruneWindow (now : ℚ) (times : List ℚ) : List ℚ :=
  times.filter (fun t => decide (now - 60 < t))

/-- Outcome of one pass through the body of `_check_rate_limit`:
either `now` gets appended to `request_times` (`admitted`), or the
caller must `time.sleep(wait)` and rerun the check on the pruned list
(`sleepRetry`), or `min([])` raises `ValueError` (`emptyMinError`,
reachable only when the configured limit is `0`). -/
inductive RateCheck where
  | admitted (newTimes : List ℚ)
  | sleepRetry (wait : ℚ) (prunedTimes : List ℚ)
  | emptyMinError
deriving DecidableEq

/-- One pass through the body of `_check_rate_limit` (lines 66-87 of
`concurrency_manager.py`): prune, compare the remaining count with the
limit, and either append `now`, or compute
`wait = 60 - (now - oldest_remaining)` and sleep-retry. -/
def checkRateLimitStep (limit : ℕ) (times : List ℚ) (now : ℚ) : RateCheck :=
  if limit ≤ (pruneWindow now times).length then
    match (pruneWindow now times).min? with
    | none => .emptyMinError
    | some oldest =>
      if 0 < 60 - (now - oldest) then
        .sleepRetry (60 - (now - oldest)) (pruneWindow now times)
      else .admitted (pruneWindow now times ++ [now])
  else .admitted (pruneWindow now times ++ [now])

/-- The full recursive `_check_rate_limit`: on `sleepRetry` the code
sleeps `wait` seconds and recurses (`return self._check_rate_limit()`)
with `request_times` already pruned; the recursion is modelled with
fuel and the minimal sleep duration (`now + wait`).  `none` means the
fuel ran out or `ValueError` was raised. -/
def checkRateLimit (limit : ℕ) : ℕ → List ℚ → ℚ → Option (List ℚ)
  | 0, _, _ => none
  | fuel + 1, times, now =>
    match checkRateLimitStep limit times now with
    | .admitted ts => some ts
    | .sleepRetry wait pruned => checkRateLimit limit fuel pruned (now + wait)
    | .emptyMinError => none

/-- A sequence of admission attempts through the rate window: each
arrival time in turn runs `_check_rate_limit` against the accumulated
`request_times` state. -/
def runAdmissions (limit fuel : ℕ) : List ℚ → List ℚ → Option (List ℚ)
  | [], times => some times
  | now :: rest, times =>
    match checkRateLimit limit fuel times now with
    | none => none
    | some ts => runAdmissions limit fuel rest ts

/-- Number of recorded timestamps inside the trailing 60-second window
ending at `t`. -/
def windowCount (times : List ℚ) (t : ℚ) : ℕ :=
  times.countP (fun x => decide (t - 60 < x ∧ x ≤ t))

/-- Every trailing 60-second window holds at most `limit` recorded
timestamps. -/
def windowBounded (limit : ℕ) (times : List ℚ) : Prop :=
  ∀ t : ℚ, windowCount times t ≤ limit

/-! ### Semaphore heap

`threading.Semaphore` instances, modelled as a heap of counters so
that instance identity is expressible: `configure` *replaces* the
manager's gate with a fresh instance rather than resizing the old
one, and `release` may legitimately target the old instance. -/

abbrev SemId := ℕ

/-- The live `threading.Semaphore` instances: entry `i` is the internal
counter of instance `i`; fresh instances are appended. -/
structure SemHeap where
  counts : List ℕ
deriving DecidableEq

/-- Internal counter of semaphore instance `s`. -/
def semCount (h : SemHeap) (s : SemId) : ℕ := h.counts.getD s 0

/-- Python `threading.Semaphore(cap)`: allocate a fresh instance. -/
def allocSem (h : SemHeap) (cap : ℕ) : SemHeap × SemId :=
  (⟨h.counts ++ [cap]⟩, h.counts.length)

/-- A non-blocked `sem.acquire()`: decrement the counter.  With a zero
counter the Python call blocks instead, which the callers below model
by returning `none`. -/
def acquireSem (h : SemHeap) (s : SemId) : SemHeap :=
  ⟨h.counts.set s (semCount h s - 1)⟩

/-- Python `sem.release()`: increment the counter (Python's plain `Semaphore`
has no upper bound). -/
def releaseSem (h : SemHeap) (s : SemId) : SemHeap :=
  ⟨h.counts.set s (semCount h s + 1)⟩

/-! ### `ThreadSafeConcurrencyManager` and the global registry -/

/-- The mutable fields of the `ThreadSafeConcurrencyManager` singleton
(`_current_semaphore` is set by `acquire` and read by `release`;
before the first `acquire` the attribute is absent, which `release`
defaults to `self.semaphore` via `getattr`). -/
structure Manager where
  max_requests_per_minute : ℕ
  concurrent_limit : ℕ
  semaphore : SemId
  request_times : List ℚ
  current_semaphore : Option SemId
deriving DecidableEq

/-- Whole-process state: the semaphore heap, the manager singleton and
the `_global_semaphores` registry (insertion-ordered key/value list,
keys unique). -/
structure SysState where
  heap : SemHeap
  mgr : Manager
  registry : List (String × SemId)
deriving DecidableEq

/-- Method `ThreadSafeConcurrencyManager.configure(concurrent_limit=None,
requests_per_minute=None)`: each field is updated only when the
argument is given and differs from the current value; a changed
concurrent limit allocates a *new* `threading.Semaphore` for future
acquisitions and leaves the old instance alive and untouched. -/
def configure (st : SysState) (climit rpm : Option ℕ) : SysState :=
  let st1 :=
    match climit with
    | none => st
    | some c =>
      if c ≠ st.mgr.concurrent_limit then
        let (h, g) := allocSem st.heap c
        { st with heap := h, mgr := { st.mgr with concurrent_limit := c, semaphore := g } }
      else st
  match rpm with
  | none => st1
  | some r =>
    if r ≠ st1.mgr.max_requests_per_minute then
      { st1 with mgr := { st1.mgr with max_requests_per_minute := r } }
    else st1

/-- Method `acquire(external_semaphore=None)`: run `_check_rate_limit` (the
sleep-retry recursion bounded by `fuel`), then block-acquire the
external semaphore if given, else the internal one, and remember the
used instance in `_current_semaphore`.  `none` means the sequential
caller never gets the permit (rate-check fuel exhausted, or the
semaphore counter is 0 with nobody left to release it). -/
def managerAcquire (st : SysState) (now : ℚ) (fuel : ℕ) (ext : Option SemId) :
    Option SysState :=
  match checkRateLimit st.mgr.max_requests_per_minute fuel st.mgr.request_times now with
  | none => none
  | some ts =>
    if semCount st.heap (ext.getD st.mgr.semaphore) = 0 then none
    else some { st with
      heap := acquireSem st.heap (ext.getD st.mgr.semaphore),
      mgr := { st.mgr with
        request_times := ts,
        current_semaphore := some (ext.getD st.mgr.semaphore) } }

/-- Method `release()`:
`getattr(self, '_current_semaphore', self.semaphore).release()`. -/
def managerRelease (st : SysState) : SysState :=
  { st with heap := releaseSem st.heap (st.mgr.current_semaphore.getD st.mgr.semaphore) }

/-- The `with`-statement over the manager: `__enter__` is `acquire()`
(or `acquire(ext)` through `ExternalSemaphoreContext`), `__exit__` is
`release()`.  Python runs `__exit__` both when the body returns and
when it raises; `__exit__` returns `None` (falsy), so a body error is
released and then re-raised, never swallowed.  The body (the wrapped
`generate_image` call) is an opaque result that does not touch the
manager state. -/
def runWithGate (st : SysState) (now : ℚ) (fuel : ℕ) (ext : Option SemId)
    (body : Except String α) : Option (Except String α × SysState) :=
  match managerAcquire st now fuel ext with
  | none => none
  | some st1 => some (body, managerRelease st1)

/-- Lookup `get_global_semaphore`: `_global_semaphores.get(semaphore_id)`. -/
def getGlobalSemaphore (reg : List (String × SemId)) (id : String) : Option SemId :=
  (reg.find? (fun p => p.1 == id)).map (fun p => p.2)

/-- Function `register_global_semaphore(semaphore_id, limit)`: if the id is
already present return the existing gate unchanged (with a warning),
else create a fresh `threading.Semaphore(limit)` and record it. -/
def registerGlobalSemaphore (st : SysState) (id : String) (limit : ℕ) :
    SysState × SemId :=
  match getGlobalSemaphore st.registry id with
  | some g => (st, g)
  | none =>
    let (h, g) := allocSem st.heap limit
    ({ st with heap := h, registry := st.registry ++ [(id, g)] }, g)

/-- The `POST /global-semaphores` handler body after the admin check:
validates `semaphore_id` and `limit`
(`if not limit or not isinstance(limit, int) or limit <= 0`) before
touching the registry, then registers.  The state is returned
alongside so that the error paths visibly leave it unchanged. -/
def registerGlobalSemaphoreEndpoint (st : SysState)
    (semaphoreId : Option String) (limit : Option ℤ) :
    Except String SemId × SysState :=
  match semaphoreId with
  | none => (.error "semaphore_id is required", st)
  | some id =>
    match limit with
    | none => (.error "limit must be a positive integer", st)
    | some l =>
      if l ≤ 0 then (.error "limit must be a positive integer", st)
      else
        let p := registerGlobalSemaphore st id l.toNat
        (.ok p.2, p.1)

/-- Helper `run_generation_with_concurrency` in `app.py` (and, with the same
structure, `run_with_external_semaphore` in `concurrency_manager.py`):
resolve the optional external semaphore id first — an unregistered id
raises `ValueError` before the `with` block, so before any rate-window
append or semaphore acquire — then run the generation body under the
gate. -/
def runGenerationWithConcurrency (st : SysState) (now : ℚ) (fuel : ℕ)
    (extId : Option String) (body : Except String α) :
    Option (Except String α × SysState) :=
  match extId with
  | some id =>
    match getGlobalSemaphore st.registry id with
    | none => some (.error ("Global semaphore '" ++ id ++ "' not found"), st)
    | some g => runWithGate st now fuel (some g) body
  | none => runWithGate st now fuel none body

/-- The record returned by `get_concurrency_status`. -/
structure ConcurrencyStatus where
  concurrent_limit : ℕ
  requests_per_minute_limit : ℕ
  current_concurrent : ℕ
  current_rate_per_minute : ℕ
  available_slots : ℕ
deriving DecidableEq

/-- Snapshot `get_concurrency_status`: reads the configured limits and
`len(manager.request_times)`; the concurrent count is hardcoded 0 and
`available_slots` approximated by the limit. -/
def getConcurrencyStatus (mgr : Manager) : ConcurrencyStatus :=
  { concurrent_limit := mgr.concurrent_limit
    requests_per_minute_limit := mgr.max_requests_per_minute
    current_concurrent := 0
    current_rate_per_minute := mgr.request_times.length
    available_slots := mgr.concurrent_limit }

/-! ### Output filename mapping (C9) -/

/-- Python `'.' in output_filename`. -/
def hasDot (s : String) : Bool := s.toList.contains '.'

/-- Python `output_filename.rsplit('.', 1)`: split at the *last* dot, giving
(base, extension).  Only consulted when a dot is present. -/
def lastDotSplit (s : String) : String × String :=
  (String.mk ((s.toList.reverse.drop (s.toList.reverse.indexOf '.' + 1)).reverse),
   String.mk ((s.toList.reverse.take (s.toList.reverse.indexOf '.')).reverse))

/-- Filename assigned to artifact `j` (0-based) of a task that produced
`total` result URLs, given the requested `output_filename` (`app.py`,
`/generate` result processing and the identical `/generate-batch`
block): with more than one output the base name is suffixed `_{j+1}`
before the extension, defaulting the extension to `jpg` when the name
has none; with a single output the name is used as-is, appending
`.jpg` when it has no extension. -/
def filenameForIndex (outputFilename : String) (total j : ℕ) : String :=
  if 1 < total then
    (if hasDot outputFilename then (lastDotSplit outputFilename).1 else outputFilename)
      ++ "_" ++ toString (j + 1) ++ "."
      ++ (if hasDot outputFilename then (lastDotSplit outputFilename).2 else "jpg")
  else
    if hasDot outputFilename then outputFilename else outputFilename ++ ".jpg"

/-- The `files_with_names` loop: each URL paired with its assigned
filename. -/
def filesWithNames (urls : List String) (outputFilename : String) :
    List (String × String) :=
  urls.enum.map (fun p => (p.2, filenameForIndex outputFilename urls.length p.1))

/-! ### Batch orchestration (C4) -/

/-- One entry of the normalized `task_list`: the prompt, the optional
requested output filename, and the task-level parameter overrides. -/
structure TaskSpec where
  prompt : String
  output_filename : Option String
  params : List (String × String)
deriving DecidableEq

/-- Default filename `task.get('output_filename', f'generated_image_{i+1}')`. -/
def taskFilename (t : TaskSpec) (i : ℕ) : String :=
  t.output_filename.getD ("generated_image_" ++ toString (i + 1))

/-- An element of `successful_results`. -/
structure SuccessEntry where
  task_index : ℕ
  prompt : String
  output_filename : String
  generated_files : List (String × String)
  count : ℕ
deriving DecidableEq

/-- An element of `failed_results`. -/
structure FailEntry where
  task_index : ℕ
  prompt : String
  output_filename : String
  error : String
deriving DecidableEq

/-- First loop of `generate_batch`: run the tasks in order; each
task's generation sits in its own `try`, so a raised exception is
stored as that index's result and the loop continues with the next
task.  `gen` is the (model client + admission control) outcome of task
`i`. -/
def batchResults (gen : ℕ → TaskSpec → Except String (List String)) :
    ℕ → List TaskSpec → List (Except String (List String))
  | _, [] => []
  | i, t :: rest => gen i t :: batchResults gen (i + 1) rest

/-- Second loop of `generate_batch`: partition the index-aligned
results into successful and failed entries, each carrying its
`task_index`, its prompt and its requested output filename. -/
def partitionResults :
    ℕ → List (TaskSpec × Except String (List String)) →
    List SuccessEntry × List FailEntry
  | _, [] => ([], [])
  | i, (t, Except.error e) :: rest =>
    ((partitionResults (i + 1) rest).1,
     { task_index := i, prompt := t.prompt,
       output_filename := taskFilename t i,
       error := e } :: (partitionResults (i + 1) rest).2)
  | i, (t, Except.ok urls) :: rest =>
    ({ task_index := i, prompt := t.prompt,
       output_filename := taskFilename t i,
       generated_files := filesWithNames urls (taskFilename t i),
       count := (filesWithNames urls (taskFilename t i)).length }
       :: (partitionResults (i + 1) rest).1,
     (partitionResults (i + 1) rest).2)

/-- The `/generate-batch` success response body. -/
structure BatchResponse where
  model_name : String
  total_tasks : ℕ
  successful_count : ℕ
  failed_count : ℕ
  successful_results : List SuccessEntry
  failed_results : List FailEntry
  external_semaphore_used : Bool
  semaphore_id : Option String
deriving DecidableEq

/-- Assemble the batch response from the task list and the
index-aligned results. -/
def buildBatchResponse (model : String) (extId : Option String)
    (taskList : List TaskSpec)
    (results : List (Except String (List String))) : BatchResponse :=
  { model_name := model
    total_tasks := taskList.length
    successful_count := (partitionResults 0 (taskList.zip results)).1.length
    failed_count := (partitionResults 0 (taskList.zip results)).2.length
    successful_results := (partitionResults 0 (taskList.zip results)).1
    failed_results := (partitionResults 0 (taskList.zip results)).2
    external_semaphore_used := extId.isSome
    semaphore_id := extId }

/-- The two loops of `generate_batch` composed. -/
def processBatch (model : String) (extId : Option String)
    (taskList : List TaskSpec)
    (gen : ℕ → TaskSpec → Except String (List String)) : BatchResponse :=
  buildBatchResponse model extId taskList (batchResults gen 0 taskList)

/-! ### Credential resolution and the generation endpoints (C10) -/

/-- The `credentials` object of a request payload. -/
structure Credentials where
  replicate_api_token : Option String
  concurrency_limit : Option ℤ
deriving DecidableEq

/-- The request headers consulted by `get_credentials_from_request`. -/
structure ReqHeaders where
  x_admin_api_key : Option String
  x_replicate_api_key : Option String
deriving DecidableEq

/-- Core of `get_credentials_from_request(headers, request_data)`, on
the three payload values the function reads (`credentials`,
`external_semaphore_id`, `concurrency_limit`).  Returns
`(api_key, external_semaphore_id, custom_concurrency)` or raises.
Python's `admin_key == ADMIN_API_KEY` compares two possibly-`None`
values, which the `Option` equality mirrors. -/
def getCredentialsCore (adminApiKey defaultReplicateKey : Option String)
    (hs : ReqHeaders) (credentials : Option Credentials)
    (externalSemaphoreId : Option String) (customConcurrency : Option ℤ) :
    Except String (String × Option String × Option ℤ) :=
  if hs.x_admin_api_key = adminApiKey then
    match defaultReplicateKey with
    | some k => .ok (k, externalSemaphoreId, customConcurrency)
    | none =>
      .error "Admin API key recognized but no default Replicate token configured"
  else
    match credentials.bind (fun c => c.replicate_api_token) with
    | some userKey =>
      .ok (userKey, externalSemaphoreId,
        (credentials.bind (fun c => c.concurrency_limit)).orElse
          (fun _ => customConcurrency))
    | none =>
      match hs.x_replicate_api_key with
      | some k => .ok (k, externalSemaphoreId, customConcurrency)
      | none =>
        match defaultReplicateKey with
        | some k => .ok (k, externalSemaphoreId, customConcurrency)
        | none => .error "No valid API key provided"

/-- The fields of a `/generate` JSON payload that the handler reads by
name; every other key lands in `extra_params`.  The handler's
`exclude_fields` comprehension keeps `output_filename` and
`extra_params` in the kwargs and drops the five named fields. -/
structure RequestData where
  model_name : Option String
  prompt : Option String
  credentials : Option Credentials
  external_semaphore_id : Option String
  concurrency_limit : Option ℤ
  output_filename : Option String
  extra_params : List (String × String)
deriving DecidableEq

/-- Resolver `get_credentials_from_request` as called by `/generate`. -/
def getCredentialsFromRequest (adminApiKey defaultReplicateKey : Option String)
    (hs : ReqHeaders) (dataOpt : Option RequestData) :
    Except String (String × Option String × Option ℤ) :=
  getCredentialsCore adminApiKey defaultReplicateKey hs
    (dataOpt.bind (fun d => d.credentials))
    (dataOpt.bind (fun d => d.external_semaphore_id))
    (dataOpt.bind (fun d => d.concurrency_limit))

/-- The `kwargs` dict comprehension of `/generate`: everything except
`model_name, prompt, credentials, external_semaphore_id,
concurrency_limit` — so `output_filename` is forwarded to the model
call too. -/
def generateKwargs (d : RequestData) : List (String × String) :=
  (match d.output_filename with
   | some f => [("output_filename", f)]
   | none => []) ++ d.extra_params

/-- The keys of `MODEL_FUNCTIONS` in `model_functions.py`. -/
def modelFunctionNames : List String :=
  ["black-forest-labs/flux-dev", "black-forest-labs/flux-kontext-max",
   "qwen/qwen-image"]

/-- The `/generate` success response body. -/
structure GenerateResponse where
  model_name : String
  prompt : String
  output_filename : String
  generated_files : List (String × String)
  count : ℕ
  external_semaphore_used : Bool
  semaphore_id : Option String
deriving DecidableEq

/-- The `/generate` handler: parse, authenticate (3-tier), validate,
run the generation under admission control, build the response.
Errors carry the HTTP status (400 validation, 401 auth, 500 internal);
`genImage` is the opaque model-client call
`generate_image(model_name, prompt, api_key, **kwargs)`. -/
def generateEndpoint (adminApiKey defaultReplicateKey : Option String)
    (hs : ReqHeaders) (dataOpt : Option RequestData) (st : SysState)
    (now : ℚ) (fuel : ℕ)
    (genImage : String → String → String → List (String × String) →
      Except String (List String)) :
    Option (Except (String × ℕ) GenerateResponse × SysState) :=
  match dataOpt with
  | none => some (.error ("No JSON data provided", 400), st)
  | some d =>
    match getCredentialsFromRequest adminApiKey defaultReplicateKey hs (some d) with
    | .error e => some (.error (e, 401), st)
    | .ok (apiKey, extId, _custom) =>
      match d.model_name with
      | none => some (.error ("model_name is required", 400), st)
      | some model =>
        match d.prompt with
        | none => some (.error ("prompt is required", 400), st)
        | some prompt =>
          if model ∉ modelFunctionNames then
            some (.error ("Model " ++ model ++ " not supported", 400), st)
          else
            match runGenerationWithConcurrency st now fuel extId
                (genImage model prompt apiKey (generateKwargs d)) with
            | none => none
            | some (.error e, st') => some (.error (e, 500), st')
            | some (.ok urls, st') =>
              some (.ok
                { model_name := model
                  prompt := prompt
                  output_filename := d.output_filename.getD "generated_image"
                  generated_files :=
                    filesWithNames urls (d.output_filename.getD "generated_image")
                  count :=
                    (filesWithNames urls (d.output_filename.getD "generated_image")).length
                  external_semaphore_used := extId.isSome
                  semaphore_id := extId }, st')

/-- The fields of a `/generate-batch` JSON payload that the handler
reads by name; every other key lands in `extra_params` (the batch
`exclude_fields` list). -/
structure BatchRequestData where
  model_name : Option String
  tasks : List TaskSpec
  prompts : List String
  custom_filenames : List String
  credentials : Option Credentials
  external_semaphore_id : Option String
  concurrency_limit : Option ℤ
  extra_params : List (String × String)
deriving DecidableEq

/-- Task-list normalization in `generate_batch`: the `tasks` format
wins when non-empty, else the legacy `prompts` (+ optional
`custom_filenames`) format is converted, else a 400 error. -/
def normalizeTasks (d : BatchRequestData) : Except String (List TaskSpec) :=
  if d.tasks ≠ [] then .ok d.tasks
  else if d.prompts ≠ [] then
    if d.custom_filenames ≠ [] ∧ d.custom_filenames.length ≠ d.prompts.length then
      .error "custom_filenames length must match prompts length"
    else
      .ok (d.prompts.enum.map (fun p =>
        { prompt := p.2
          output_filename :=
            if d.custom_filenames ≠ [] ∧ p.1 < d.custom_filenames.length then
              some (d.custom_filenames.getD p.1 "")
            else none
          params := [] }))
  else .error "Either tasks array or prompts array is required"

/-- Python dict update semantics: task-level keys win over batch-level
keys. -/
def overrideParams (globalKwargs taskParams : List (String × String)) :
    List (String × String) :=
  globalKwargs.filter (fun p => ¬ taskParams.any (fun q => q.1 == p.1))
    ++ taskParams

/-- Per-task kwargs in `generate_batch`: global kwargs overridden by
the task's own parameters, a default `output_dir` when none given,
and the task's `custom_filename` when requested. -/
def taskKwargs (globalKwargs : List (String × String)) (t : TaskSpec) (i : ℕ) :
    List (String × String) :=
  let merged := overrideParams globalKwargs t.params
  let withDir :=
    if merged.any (fun p => p.1 == "output_dir") then merged
    else merged ++ [("output_dir", "output/batch_" ++ toString (i + 1))]
  match t.output_filename with
  | some f => withDir ++ [("custom_filename", f)]
  | none => withDir

/-- The batch loop: run each task in order through
`run_generation_with_concurrency`, threading the admission-control
state; the per-task `try` catches exceptions — including the
unregistered-semaphore `ValueError` — as that index's result. -/
def runBatchTasks (now : ℚ) (fuel : ℕ) (extId : Option String)
    (apiKey model : String) (globalKwargs : List (String × String))
    (genImage : String → String → String → List (String × String) →
      Except String (List String)) :
    ℕ → List TaskSpec → SysState →
    Option (List (Except String (List String)) × SysState)
  | _, [], st => some ([], st)
  | i, t :: rest, st =>
    match runGenerationWithConcurrency st now fuel extId
        (genImage model t.prompt apiKey (taskKwargs globalKwargs t i)) with
    | none => none
    | some (r, st') =>
      match runBatchTasks now fuel extId apiKey model globalKwargs genImage
          (i + 1) rest st' with
      | none => none
      | some (rs, st'') => some (r :: rs, st'')

/-- The `/generate-batch` handler. -/
def generateBatchEndpoint (adminApiKey defaultReplicateKey : Option String)
    (hs : ReqHeaders) (dataOpt : Option BatchRequestData) (st : SysState)
    (now : ℚ) (fuel : ℕ)
    (genImage : String → String → String → List (String × String) →
      Except String (List String)) :
    Option (Except (String × ℕ) BatchResponse × SysState) :=
  match dataOpt with
  | none => some (.error ("No JSON data provided", 400), st)
  | some d =>
    match getCredentialsCore adminApiKey defaultReplicateKey hs d.credentials
        d.external_semaphore_id d.concurrency_limit with
    | .error e => some (.error (e, 401), st)
    | .ok (apiKey, extId, _custom) =>
      match normalizeTasks d with
      | .error e => some (.error (e, 400), st)
      | .ok taskList =>
        match d.model_name with
        | none => some (.error ("model_name is required", 400), st)
        | some model =>
          if model ∉ modelFunctionNames then
            some (.error ("Model " ++ model ++ " not supported", 400), st)
          else
            match runBatchTasks now fuel extId apiKey model d.extra_params
                genImage 0 taskList st with
            | none => none
            | some (results, st') =>
              some (.ok (buildBatchResponse model extId taskList results), st')

/-- A `/generate` payload identical except for the top-level
`concurrency_limit` and the `credentials.concurrency_limit` fields. -/
def setConcurrencyFields (d : RequestData) (x y : Option ℤ) : RequestData :=
  { d with
    concurrency_limit := x
    credentials := d.credentials.map (fun c => { c with concurrency_limit := y }) }

/-- A `/generate-batch` payload identical except for the two
concurrency-override fields. -/
def setBatchConcurrencyFields (d : BatchRequestData) (x y : Option ℤ) :
    BatchRequestData :=
  { d with
    concurrency_limit := x
    credentials := d.credentials.map (fun c => { c with concurrency_limit := y }) }

theorem windowCount_prune_le (now t : ℚ) (times : List ℚ) :
    windowCount (pruneWindow now times) t ≤ windowCount times t := by
  unfold windowCount pruneWindow
  rw [List.countP_filter]
  exact List.countP_mono_left (fun a _ h => by
    simp only [Bool.and_eq_true, decide_eq_true_eq] at h ⊢
    exact h.1)

theorem windowBounded_prune (limit : ℕ) (now : ℚ) (times : List ℚ)
    (h : windowBounded limit times) :
    windowBounded limit (pruneWindow now times) :=
  fun t => le_trans (windowCount_prune_le now t times) (h t)

theorem mem_pruneWindow_gt {now x : ℚ} {times : List ℚ}
    (h : x ∈ pruneWindow now times) : now - 60 < x := by
  unfold pruneWindow at h
  have := List.of_mem_filter h
  simpa using this

theorem checkRateLimitStep_sleepRetry_eq {limit : ℕ} {times : List ℚ} {now w : ℚ}
    {p : List ℚ} (h : checkRateLimitStep limit times now = .sleepRetry w p) :
    p = pruneWindow now times := by
  unfold checkRateLimitStep at h
  split at h
  · split at h
    · exact absurd h (by simp)
    · split at h
      · cases h; rfl
      · exact absurd h (by simp)
  · exact absurd h (by simp)

theorem checkRateLimitStep_admitted_bounded {limit : ℕ} {times ts : List ℚ}
    {now : ℚ} (hB : windowBounded limit times)
    (h : checkRateLimitStep limit times now = .admitted ts) :
    windowBounded limit ts := by
  unfold checkRateLimitStep at h
  split at h
  case isTrue hlen =>
    split at h
    · exact absurd h (by simp)
    case h_2 oldest hmin =>
      split at h
      · exact absurd h (by simp)
      case isFalse hwait =>
        -- the fall-through append is unreachable: the oldest surviving
        -- timestamp is strictly newer than `now - 60`, so `wait > 0`.
        exfalso
        have hmem : oldest ∈ pruneWindow now times :=
          List.min?_mem (fun a b => min_choice a b) hmin
        have hgt : now - 60 < oldest := mem_pruneWindow_gt hmem
        exact hwait (by linarith)
  case isFalse hlen =>
    cases h
    push_neg at hlen
    intro t
    unfold windowCount
    rw [List.countP_append]
    by_cases hmem : (t - 60 < now ∧ now ≤ t)
    · have h1 : List.countP (fun x => decide (t - 60 < x ∧ x ≤ t)) [now] ≤ 1 := by
        simp [List.countP_cons]
        split <;> omega
      have h2 : List.countP (fun x => decide (t - 60 < x ∧ x ≤ t)) (pruneWindow now times)
          ≤ (pruneWindow now times).length := List.countP_le_length _
      omega
    · have h1 : List.countP (fun x => decide (t - 60 < x ∧ x ≤ t)) [now] = 0 := by
        simp [List.countP_cons, hmem]
      have h2 := le_trans (windowCount_prune_le now t times) (hB t)
      unfold windowCount at h2
      omega

theorem checkRateLimit_bounded {limit : ℕ} (fuel : ℕ) {times ts : List ℚ}
    {now : ℚ} (hB : windowBounded limit times)
    (h : checkRateLimit limit fuel times now = some ts) :
    windowBounded limit ts := by
  induction fuel generalizing times now with
  | zero => simp [checkRateLimit] at h
  | succ n ih =>
    unfold checkRateLimit at h
    split at h
    case h_1 ts' hstep =>
      cases h
      exact checkRateLimitStep_admitted_bounded hB hstep
    case h_2 w p hstep =>
      have hp : p = pruneWindow now times := checkRateLimitStep_sleepRetry_eq hstep
      exact ih (hp ▸ windowBounded_prune limit now times hB) h
    case h_3 hstep => exact absurd h (by simp)

theorem runAdmissions_bounded {limit fuel : ℕ} {arrivals times ts : List ℚ}
    (hB : windowBounded limit times)
    (h : runAdmissions limit fuel arrivals times = some ts) :
    windowBounded limit ts := by
  induction arrivals generalizing times with
  | nil => simp [runAdmissions] at h; exact h ▸ hB
  | cons now rest ih =>
    unfold runAdmissions at h
    split at h
    · exact absurd h (by simp)
    case h_2 ts' hchk => exact ih (checkRateLimit_bounded fuel hB hchk) h

/-- C1: For every sequence of admission attempts through the rate
window (`_check_rate_limit`), no trailing 60-second window ever
contains more recorded timestamps than the configured
requests-per-minute limit: each check prunes timestamps older than
`now - 60`, appends `now` only when the remaining count is below the
limit, and otherwise waits `60 - (now - oldest)` and retries, so no
timestamp is recorded until headroom exists.  Starting from any state
whose windows are within the limit (in particular the empty initial
state), every state reached by a run of admissions is again within
the limit. -/
theorem rate_window_never_exceeds_limit
    (limit fuel : ℕ) (arrivals times times' : List ℚ)
    (hB : windowBounded limit times)
    (h : runAdmissions limit fuel arrivals times = some times') :
    windowBounded limit times' :=
  runAdmissions_bounded hB h

/-- Witness for C1: three admissions at times 1, 2, 30 against a limit
of 2 (the third has to wait out the window) leave a state whose
trailing windows never hold more than 2 timestamps. -/
theorem rate_window_never_exceeds_limit_witness :
    windowBounded 2 [(1 : ℚ), 2] :=
  rate_window_never_exceeds_limit 2 3 [1, 2] [] [1, 2]
    (fun _ => by simp [windowCount])
    (by simp [runAdmissions, checkRateLimit, checkRateLimitStep, pruneWindow]; norm_num)

/-! ### Semaphore heap lemmas -/

theorem semCount_pos_lt {h : SemHeap} {s : SemId} (hp : semCount h s ≠ 0) :
    s < h.counts.length := by
  by_contra hge
  push_neg at hge
  exact hp (by simp [semCount, List.getD_eq_getElem?_getD, List.getElem?_eq_none hge])

theorem semCount_release_acquire (h : SemHeap) (s : SemId)
    (hp : semCount h s ≠ 0) :
    semCount (releaseSem (acquireSem h s) s) s = semCount h s := by
  have hlt := semCount_pos_lt hp
  unfold semCount at hp
  simp only [List.getD_eq_getElem?_getD] at hp
  unfold releaseSem acquireSem semCount
  simp [List.getD_eq_getElem?_getD, List.getElem?_set_self, hlt]
  have hp' : h.counts[s] ≠ 0 := by
    rw [List.getElem?_eq_getElem hlt] at hp
    simpa using hp
  omega

theorem semCount_alloc_old (h : SemHeap) (cap : ℕ) {s : SemId}
    (hs : s < h.counts.length) :
    semCount (allocSem h cap).1 s = semCount h s := by
  simp [allocSem, semCount, List.getD_eq_getElem?_getD, List.getElem?_append_left, hs]

theorem semCount_alloc_new (h : SemHeap) (cap : ℕ) :
    semCount (allocSem h cap).1 (allocSem h cap).2 = cap := by
  simp [allocSem, semCount, List.getD_eq_getElem?_getD, List.getElem?_append_right]

theorem semCount_release_self (h : SemHeap) {s : SemId}
    (hs : s < h.counts.length) :
    semCount (releaseSem h s) s = semCount h s + 1 := by
  simp [releaseSem, semCount, List.getD_eq_getElem?_getD, List.getElem?_set_self, hs]

theorem semCount_release_other (h : SemHeap) {s t : SemId} (hst : s ≠ t) :
    semCount (releaseSem h s) t = semCount h t := by
  simp [releaseSem, semCount, List.getD_eq_getElem?_getD, List.getElem?_set_ne, hst]

/-- Shape of a successful `acquire`: the rate check admitted some list
`ts`, the used semaphore had a positive counter and was decremented,
and `_current_semaphore` now names it. -/
theorem managerAcquire_some {st st1 : SysState} {now : ℚ} {fuel : ℕ}
    {ext : Option SemId}
    (hacq : managerAcquire st now fuel ext = some st1) :
    semCount st.heap (ext.getD st.mgr.semaphore) ≠ 0 ∧
    st1.heap = acquireSem st.heap (ext.getD st.mgr.semaphore) ∧
    st1.mgr.current_semaphore = some (ext.getD st.mgr.semaphore) ∧
    st1.mgr.semaphore = st.mgr.semaphore ∧
    st1.registry = st.registry := by
  unfold managerAcquire at hacq
  split at hacq
  · exact absurd hacq (by simp)
  · split at hacq
    · exact absurd hacq (by simp)
    case isFalse h0 =>
      cases hacq
      exact ⟨h0, rfl, rfl, rfl, rfl⟩

/-- C2: For every operation run under the controller's scoped
acquisition (the `with concurrency_manager:` path or the
`ExternalSemaphoreContext` path, i.e. `runWithGate` with `ext` absent
or present), release of the acquired semaphore occurs on every exit
path: the `with` block returns the body's value — a raised error
propagates, a success is returned — and in both cases the released
state restores the acquired semaphore's counter to its initial
value. -/
theorem run_with_gate_releases_on_every_path (st : SysState) (now : ℚ)
    (fuel : ℕ) (ext : Option SemId) (body : Except String α) (st1 : SysState)
    (hacq : managerAcquire st now fuel ext = some st1) :
    runWithGate st now fuel ext body = some (body, managerRelease st1) ∧
    semCount (managerRelease st1).heap (ext.getD st.mgr.semaphore)
      = semCount st.heap (ext.getD st.mgr.semaphore) := by
  obtain ⟨h0, hheap, hcur, -, -⟩ := managerAcquire_some hacq
  constructor
  · simp [runWithGate, hacq]
  · simp only [managerRelease, hcur, hheap, Option.getD_some]
    exact semCount_release_acquire st.heap (ext.getD st.mgr.semaphore) h0

/-- Witness for C2 at a concrete state: one internal-gate acquisition
with a failing body; the error comes back and the counter is back to
1. -/
theorem run_with_gate_releases_witness :
    runWithGate ⟨⟨[1]⟩, ⟨600, 1, 0, [], none⟩, []⟩ 0 1 none
        (Except.error "upstream boom" : Except String (List String))
      = some (Except.error "upstream boom",
          managerRelease ⟨⟨[0]⟩, ⟨600, 1, 0, [0], some 0⟩, []⟩) ∧
    semCount (managerRelease ⟨⟨[0]⟩, ⟨600, 1, 0, [0], some 0⟩, []⟩).heap
        ((none : Option SemId).getD (⟨⟨[1]⟩, ⟨600, 1, 0, [], none⟩, []⟩ : SysState).mgr.semaphore)
      = semCount (⟨⟨[1]⟩, ⟨600, 1, 0, [], none⟩, []⟩ : SysState).heap
        ((none : Option SemId).getD (⟨⟨[1]⟩, ⟨600, 1, 0, [], none⟩, []⟩ : SysState).mgr.semaphore) :=
  run_with_gate_releases_on_every_path _ 0 1 none _ _
    (by simp [managerAcquire, checkRateLimit, checkRateLimitStep, pruneWindow, semCount,
          acquireSem])

/-! ### `configure` frame conditions (C3) -/

theorem configure_some_none_eq (st : SysState) (c : ℕ)
    (hc : c ≠ st.mgr.concurrent_limit) :
    configure st (some c) none =
      { st with
        heap := ⟨st.heap.counts ++ [c]⟩
        mgr := { st.mgr with
          concurrent_limit := c
          semaphore := st.heap.counts.length } } := by
  simp [configure, allocSem, hc]

/-- C3: `configure` updates only the fields explicitly provided
(`none` leaves a setting unchanged); providing a `concurrent_limit`
that differs from the current value installs a *fresh* semaphore
instance of the new capacity for future acquisitions while the old
instance keeps its counter (holders of the old gate can still release
it, incrementing exactly the old instance and leaving the new one
untouched); providing `requests_per_minute` alone leaves the semaphore
untouched. -/
theorem configure_updates_only_given_fields (st : SysState) (c r : ℕ)
    (hsem : st.mgr.semaphore < st.heap.counts.length)
    (hc : c ≠ st.mgr.concurrent_limit) :
    configure st none none = st ∧
    (configure st none (some r)).heap = st.heap ∧
    (configure st none (some r)).mgr.semaphore = st.mgr.semaphore ∧
    (configure st none (some r)).mgr.concurrent_limit = st.mgr.concurrent_limit ∧
    (configure st (some c) none).mgr.max_requests_per_minute
      = st.mgr.max_requests_per_minute ∧
    (configure st (some c) none).mgr.request_times = st.mgr.request_times ∧
    (configure st (some c) none).mgr.concurrent_limit = c ∧
    (configure st (some c) none).mgr.semaphore ≠ st.mgr.semaphore ∧
    semCount (configure st (some c) none).heap st.mgr.semaphore
      = semCount st.heap st.mgr.semaphore ∧
    semCount (configure st (some c) none).heap
      (configure st (some c) none).mgr.semaphore = c ∧
    semCount (releaseSem (configure st (some c) none).heap st.mgr.semaphore)
      st.mgr.semaphore = semCount st.heap st.mgr.semaphore + 1 ∧
    semCount (releaseSem (configure st (some c) none).heap st.mgr.semaphore)
      (configure st (some c) none).mgr.semaphore = c := by
  have hval := configure_some_none_eq st c hc
  have hlen : st.mgr.semaphore < (st.heap.counts ++ [c]).length := by
    simp
    exact Nat.lt_succ_of_lt hsem
  refine ⟨rfl, ?_, ?_, ?_, ?_, ?_, ?_, ?_, ?_, ?_, ?_, ?_⟩
  · simp only [configure]; split <;> rfl
  · simp only [configure]; split <;> rfl
  · simp only [configure]; split <;> rfl
  · rw [hval]
  · rw [hval]
  · rw [hval]
  · rw [hval]
    simp
    exact (Nat.ne_of_lt hsem).symm
  · rw [hval]
    simpa [allocSem] using semCount_alloc_old st.heap c hsem
  · rw [hval]
    simpa [allocSem] using semCount_alloc_new st.heap c
  · rw [hval]
    have hold : semCount ⟨st.heap.counts ++ [c]⟩ st.mgr.semaphore
        = semCount st.heap st.mgr.semaphore := by
      simpa [allocSem] using semCount_alloc_old st.heap c hsem
    have h1 := semCount_release_self (h := (⟨st.heap.counts ++ [c]⟩ : SemHeap))
      (s := st.mgr.semaphore) (by simpa using hlen)
    rw [hold] at h1
    exact h1
  · rw [hval]
    have hnew : semCount ⟨st.heap.counts ++ [c]⟩ st.heap.counts.length = c := by
      simpa [allocSem] using semCount_alloc_new st.heap c
    have hne : st.mgr.semaphore ≠ st.heap.counts.length := Nat.ne_of_lt hsem
    have h1 := semCount_release_other (h := (⟨st.heap.counts ++ [c]⟩ : SemHeap))
      (s := st.mgr.semaphore) (t := st.heap.counts.length) hne
    rw [hnew] at h1
    exact h1

/-- Witness for C3: from a state whose internal gate is instance 0 with
counter 60, `configure(concurrent_limit=3)` installs a fresh instance
of capacity 3, keeps the old instance's counter intact, and the new
gate is a different instance. -/
theorem configure_updates_only_given_fields_witness :
    semCount (configure ⟨⟨[60]⟩, ⟨600, 60, 0, [], none⟩, []⟩ (some 3) none).heap
        (configure ⟨⟨[60]⟩, ⟨600, 60, 0, [], none⟩, []⟩ (some 3) none).mgr.semaphore = 3 ∧
    semCount (configure ⟨⟨[60]⟩, ⟨600, 60, 0, [], none⟩, []⟩ (some 3) none).heap
        (⟨⟨[60]⟩, ⟨600, 60, 0, [], none⟩, []⟩ : SysState).mgr.semaphore
      = semCount (⟨⟨[60]⟩, ⟨600, 60, 0, [], none⟩, []⟩ : SysState).heap
          (⟨⟨[60]⟩, ⟨600, 60, 0, [], none⟩, []⟩ : SysState).mgr.semaphore ∧
    (configure ⟨⟨[60]⟩, ⟨600, 60, 0, [], none⟩, []⟩ (some 3) none).mgr.semaphore
      ≠ (⟨⟨[60]⟩, ⟨600, 60, 0, [], none⟩, []⟩ : SysState).mgr.semaphore := by
  have h := configure_updates_only_given_fields
    ⟨⟨[60]⟩, ⟨600, 60, 0, [], none⟩, []⟩ 3 100 (by decide) (by decide)
  exact ⟨h.2.2.2.2.2.2.2.2.2.1, h.2.2.2.2.2.2.2.2.1, h.2.2.2.2.2.2.2.1⟩

/-! ### External semaphore resolution (C5) -/

/-- C5: A generation call naming an `external_semaphore_id` that is
not in the registry fails with the not-found `ValueError` *before* any
rate-window timestamp is recorded and before any semaphore is
acquired: the returned state is exactly the initial state. -/
theorem unregistered_external_semaphore_no_side_effect
    (st : SysState) (now : ℚ) (fuel : ℕ) (id : String)
    (body : Except String (List String))
    (h : getGlobalSemaphore st.registry id = none) :
    runGenerationWithConcurrency st now fuel (some id) body
      = some (.error ("Global semaphore '" ++ id ++ "' not found"), st) := by
  simp [runGenerationWithConcurrency, h]

/-- Witness for C5 at a concrete state with an empty registry. -/
theorem unregistered_external_semaphore_no_side_effect_witness :
    runGenerationWithConcurrency ⟨⟨[1]⟩, ⟨600, 1, 0, [], none⟩, []⟩ 0 1
        (some "missing") (Except.ok ["url"])
      = some (.error ("Global semaphore '" ++ "missing" ++ "' not found"),
              ⟨⟨[1]⟩, ⟨600, 1, 0, [], none⟩, []⟩) :=
  unregistered_external_semaphore_no_side_effect
    ⟨⟨[1]⟩, ⟨600, 1, 0, [], none⟩, []⟩ 0 1 "missing" (Except.ok ["url"]) (by rfl)

/-! ### Registry registration (C6, C7) -/

/-- C6: Registering a semaphore id that already exists — with any
limit, including a different one — is idempotent: it returns the gate
created by the first registration and leaves the whole state (heap and
registry) unchanged, so both callers observe the first registration's
capacity and no second entry is created. -/
theorem register_existing_id_idempotent (st : SysState) (id : String)
    (g : SemId) (limit : ℕ)
    (h : getGlobalSemaphore st.registry id = some g) :
    registerGlobalSemaphore st id limit = (st, g) := by
  simp [registerGlobalSemaphore, h]

/-- Witness for C6: re-registering id `"shared"` (held by instance 0 of
capacity 2) with the different limit 5 returns instance 0 and changes
nothing. -/
theorem register_existing_id_idempotent_witness :
    registerGlobalSemaphore ⟨⟨[2]⟩, ⟨600, 60, 0, [], none⟩, [("shared", 0)]⟩
        "shared" 5
      = (⟨⟨[2]⟩, ⟨600, 60, 0, [], none⟩, [("shared", 0)]⟩, 0) :=
  register_existing_id_idempotent _ "shared" 0 5 (by rfl)

/-- C7: The registration endpoint fails with the invalid-argument
error for every `limit ≤ 0` and creates no registry entry (the state
comes back unchanged); for every `limit > 0` with an absent id it
creates a gate of exactly that capacity under the id. -/
theorem register_endpoint_limit_validation (st : SysState) (id : String)
    (lneg lpos : ℤ) (hneg : lneg ≤ 0) (hpos : 0 < lpos)
    (habs : getGlobalSemaphore st.registry id = none) :
    registerGlobalSemaphoreEndpoint st (some id) (some lneg)
      = (.error "limit must be a positive integer", st) ∧
    (registerGlobalSemaphoreEndpoint st (some id) (some lpos)).1
      = .ok (allocSem st.heap lpos.toNat).2 ∧
    getGlobalSemaphore
        (registerGlobalSemaphoreEndpoint st (some id) (some lpos)).2.registry id
      = some (allocSem st.heap lpos.toNat).2 ∧
    (semCount (registerGlobalSemaphoreEndpoint st (some id) (some lpos)).2.heap
        (allocSem st.heap lpos.toNat).2 : ℤ) = lpos := by
  have hnotle : ¬ lpos ≤ 0 := by omega
  have hfind : st.registry.find? (fun p => p.1 == id) = none := by
    unfold getGlobalSemaphore at habs
    cases hf : st.registry.find? (fun p => p.1 == id) with
    | none => rfl
    | some p => rw [hf] at habs; simp at habs
  have hreg : registerGlobalSemaphore st id lpos.toNat
      = ({ st with
           heap := (allocSem st.heap lpos.toNat).1
           registry := st.registry ++ [(id, (allocSem st.heap lpos.toNat).2)] },
         (allocSem st.heap lpos.toNat).2) := by
    simp [registerGlobalSemaphore, habs]
  refine ⟨?_, ?_, ?_, ?_⟩
  · simp [registerGlobalSemaphoreEndpoint, hneg]
  · simp [registerGlobalSemaphoreEndpoint, hnotle, hreg]
  · simp only [registerGlobalSemaphoreEndpoint, hnotle, if_false, hreg]
    unfold getGlobalSemaphore
    rw [List.find?_append, hfind]
    simp
  · simp only [registerGlobalSemaphoreEndpoint, hnotle, if_false, hreg]
    rw [semCount_alloc_new st.heap lpos.toNat]
    exact Int.toNat_of_nonneg hpos.le

/-- Witness for C7: limit `-1` is rejected without touching the empty
registry; limit `4` creates gate instance 0 of capacity 4 under
`"cap"`. -/
theorem register_endpoint_limit_validation_witness :
    registerGlobalSemaphoreEndpoint ⟨⟨[]⟩, ⟨600, 60, 0, [], none⟩, []⟩
        (some "cap") (some (-1))
      = (.error "limit must be a positive integer",
         ⟨⟨[]⟩, ⟨600, 60, 0, [], none⟩, []⟩) ∧
    (registerGlobalSemaphoreEndpoint ⟨⟨[]⟩, ⟨600, 60, 0, [], none⟩, []⟩
        (some "cap") (some 4)).1
      = .ok (allocSem (⟨[]⟩ : SemHeap) ((4 : ℤ).toNat)).2 ∧
    getGlobalSemaphore
        (registerGlobalSemaphoreEndpoint ⟨⟨[]⟩, ⟨600, 60, 0, [], none⟩, []⟩
          (some "cap") (some 4)).2.registry "cap"
      = some (allocSem (⟨[]⟩ : SemHeap) ((4 : ℤ).toNat)).2 ∧
    (semCount (registerGlobalSemaphoreEndpoint ⟨⟨[]⟩, ⟨600, 60, 0, [], none⟩, []⟩
        (some "cap") (some 4)).2.heap
        (allocSem (⟨[]⟩ : SemHeap) ((4 : ℤ).toNat)).2 : ℤ) = 4 :=
  register_endpoint_limit_validation ⟨⟨[]⟩, ⟨600, 60, 0, [], none⟩, []⟩ "cap"
    (-1) 4 (by decide) (by decide) (by rfl)

/-! ### Status snapshot (C8) -/

/-- Counterexample to C8 as stated: after a single admission at time 0
(a reachable state, as the `runAdmissions` conjunct shows), a status
query made at time 100 reports `current_rate_per_minute = 1`, yet the
trailing 60-second window ending at time 100 contains no recorded
admission — `get_concurrency_status` counts the stored list without
pruning it. -/
theorem status_rate_is_not_trailing_window_count :
    runAdmissions 600 1 [0] [] = some [0] ∧
    (getConcurrencyStatus ⟨600, 60, 0, [0], none⟩).current_rate_per_minute = 1 ∧
    windowCount [0] 100 = 0 ∧
    (getConcurrencyStatus ⟨600, 60, 0, [0], none⟩).current_rate_per_minute
      ≠ windowCount [0] 100 := by
  refine ⟨?_, rfl, ?_, ?_⟩
  · simp [runAdmissions, checkRateLimit, checkRateLimitStep, pruneWindow]
  · simp [windowCount]; norm_num
  · intro h
    rw [show windowCount [0] 100 = 0 from by simp [windowCount]; norm_num] at h
    simp [getConcurrencyStatus] at h

/-- C8, amended: `status()` reports `concurrent_limit` and
`requests_per_minute_limit` exactly as configured, and
`current_rate_per_minute` equals the number of *stored* timestamps
(`len(request_times)`) — the trailing-window count as of the most
recent admission check, not as of the status call: no pruning happens
in `get_concurrency_status`, so this value only bounds the trailing
60-second window count at query time from above. -/
theorem status_reports_limits_and_stored_count (mgr : Manager) :
    (getConcurrencyStatus mgr).concurrent_limit = mgr.concurrent_limit ∧
    (getConcurrencyStatus mgr).requests_per_minute_limit
      = mgr.max_requests_per_minute ∧
    (getConcurrencyStatus mgr).current_rate_per_minute
      = mgr.request_times.length ∧
    ∀ t : ℚ, windowCount mgr.request_times t
      ≤ (getConcurrencyStatus mgr).current_rate_per_minute :=
  ⟨rfl, rfl, rfl, fun _ => by
    unfold windowCount getConcurrencyStatus
    exact List.countP_le_length _⟩

/-- C9: For a task yielding `K ≥ 1` result URLs: when `K > 1`,
artifact `j` (1-based) is named by suffixing `_j` to the base name
before the extension, with default extension `jpg` when the base has
none; when `K = 1` the base filename is used unmodified except that
the default extension is appended when absent.  In particular `"pic"`
with 3 artifacts yields `pic_1.jpg, pic_2.jpg, pic_3.jpg`. -/
theorem filename_suffix_rule (name : String) (k j : ℕ) :
    (1 < k → filenameForIndex name k j
      = (if hasDot name then (lastDotSplit name).1 else name)
        ++ "_" ++ toString (j + 1) ++ "."
        ++ (if hasDot name then (lastDotSplit name).2 else "jpg")) ∧
    (k = 1 → filenameForIndex name k j
      = if hasDot name then name else name ++ ".jpg") ∧
    (filesWithNames ["u1", "u2", "u3"] "pic").map Prod.snd
      = ["pic_1.jpg", "pic_2.jpg", "pic_3.jpg"] := by
  refine ⟨fun hk => by simp [filenameForIndex, hk], fun hk => ?_, by decide⟩
  subst hk
  simp [filenameForIndex]

/-- Witness for C9: the multi-output rule at `"pic"`, `K = 3`, first
artifact, and the single-output rule at `"photo.png"`. -/
theorem filename_suffix_rule_witness :
    filenameForIndex "pic" 3 0 = "pic_1.jpg" ∧
    filenameForIndex "photo.png" 1 0 = "photo.png" := by
  constructor
  · have h := (filename_suffix_rule "pic" 3 0).1 (by decide)
    rw [h]; decide
  · have h := (filename_suffix_rule "photo.png" 1 0).2.1 rfl
    rw [h]; decide
theorem partition_batch_lengths
    (gen : ℕ → TaskSpec → Except String (List String)) (i₀ : ℕ)
    (l : List TaskSpec) :
    (partitionResults i₀ (l.zip (batchResults gen i₀ l))).1.length
      + (partitionResults i₀ (l.zip (batchResults gen i₀ l))).2.length
      = l.length := by
  induction l generalizing i₀ with
  | nil => simp [batchResults, partitionResults]
  | cons t rest ih =>
    simp only [batchResults, List.zip_cons_cons]
    cases hg : gen i₀ t with
    | error e =>
      simp only [partitionResults, List.length_cons]
      have := ih (i₀ + 1)
      omega
    | ok urls =>
      simp only [partitionResults, List.length_cons]
      have := ih (i₀ + 1)
      omega

theorem partition_batch_mem
    (gen : ℕ → TaskSpec → Except String (List String)) (i₀ : ℕ)
    (l : List TaskSpec) (j : ℕ) (t : TaskSpec) (hget : l.get? j = some t) :
    (∀ e, gen (i₀ + j) t = .error e →
      ({ task_index := i₀ + j, prompt := t.prompt,
         output_filename := taskFilename t (i₀ + j), error := e } : FailEntry)
        ∈ (partitionResults i₀ (l.zip (batchResults gen i₀ l))).2) ∧
    (∀ urls, gen (i₀ + j) t = .ok urls →
      ({ task_index := i₀ + j, prompt := t.prompt,
         output_filename := taskFilename t (i₀ + j),
         generated_files := filesWithNames urls (taskFilename t (i₀ + j)),
         count := (filesWithNames urls (taskFilename t (i₀ + j))).length } : SuccessEntry)
        ∈ (partitionResults i₀ (l.zip (batchResults gen i₀ l))).1) := by
  induction l generalizing i₀ j with
  | nil => simp at hget
  | cons a rest ih =>
    cases j with
    | zero =>
      cases hget
      simp only [batchResults, List.zip_cons_cons, Nat.add_zero]
      constructor
      · intro e hg
        rw [hg]
        simp [partitionResults]
      · intro urls hg
        rw [hg]
        simp [partitionResults]
    | succ n =>
      simp only [List.get?_cons_succ] at hget
      have hidx : i₀ + (n + 1) = (i₀ + 1) + n := by omega
      have h := ih (i₀ + 1) n hget
      rw [hidx]
      simp only [batchResults, List.zip_cons_cons]
      constructor
      · intro e hg
        have hmem := h.1 e hg
        cases gen i₀ a <;> simp [partitionResults, hmem]
      · intro urls hg
        have hmem := h.2 urls hg
        cases gen i₀ a <;> simp [partitionResults, hmem]

/-- C4: In a batch of `N` tasks, a task whose generation raises is
caught and recorded as the `failed_results` entry for its index
without preventing execution of the later tasks (every index, before
or after a failure, gets its entry); each entry carries its original
`task_index`, prompt and requested output filename, and
`successful_count + failed_count = N`. -/
theorem batch_failure_isolation (model : String) (extId : Option String)
    (taskList : List TaskSpec)
    (gen : ℕ → TaskSpec → Except String (List String)) :
    (processBatch model extId taskList gen).successful_count
      + (processBatch model extId taskList gen).failed_count
      = (processBatch model extId taskList gen).total_tasks ∧
    (processBatch model extId taskList gen).total_tasks = taskList.length ∧
    ∀ j t, taskList.get? j = some t →
      (∀ e, gen j t = .error e →
        ({ task_index := j, prompt := t.prompt,
           output_filename := taskFilename t j, error := e } : FailEntry)
          ∈ (processBatch model extId taskList gen).failed_results) ∧
      (∀ urls, gen j t = .ok urls →
        ({ task_index := j, prompt := t.prompt,
           output_filename := taskFilename t j,
           generated_files := filesWithNames urls (taskFilename t j),
           count := (filesWithNames urls (taskFilename t j)).length } : SuccessEntry)
          ∈ (processBatch model extId taskList gen).successful_results) := by
  refine ⟨?_, rfl, ?_⟩
  · exact partition_batch_lengths gen 0 taskList
  · intro j t hget
    have h := partition_batch_mem gen 0 taskList j t hget
    simpa using h

/-- Witness for C4: a 2-task batch where task 0 raises and task 1
succeeds — the failure is recorded at index 0, task 1 still runs and
lands in `successful_results`, and the counts sum to 2. -/
theorem batch_failure_isolation_witness :
    (processBatch "black-forest-labs/flux-dev" none
        [⟨"a", none, []⟩, ⟨"b", some "pic", []⟩]
        (fun i _ => if i = 0 then .error "boom" else .ok ["u1"])).successful_count
      + (processBatch "black-forest-labs/flux-dev" none
        [⟨"a", none, []⟩, ⟨"b", some "pic", []⟩]
        (fun i _ => if i = 0 then .error "boom" else .ok ["u1"])).failed_count
      = (processBatch "black-forest-labs/flux-dev" none
        [⟨"a", none, []⟩, ⟨"b", some "pic", []⟩]
        (fun i _ => if i = 0 then .error "boom" else .ok ["u1"])).total_tasks ∧
    ({ task_index := 0, prompt := "a",
       output_filename := taskFilename ⟨"a", none, []⟩ 0,
       error := "boom" } : FailEntry)
      ∈ (processBatch "black-forest-labs/flux-dev" none
        [⟨"a", none, []⟩, ⟨"b", some "pic", []⟩]
        (fun i _ => if i = 0 then .error "boom" else .ok ["u1"])).failed_results ∧
    ({ task_index := 1, prompt := "b",
       output_filename := taskFilename ⟨"b", some "pic", []⟩ 1,
       generated_files := filesWithNames ["u1"] (taskFilename ⟨"b", some "pic", []⟩ 1),
       count := (filesWithNames ["u1"] (taskFilename ⟨"b", some "pic", []⟩ 1)).length } : SuccessEntry)
      ∈ (processBatch "black-forest-labs/flux-dev" none
        [⟨"a", none, []⟩, ⟨"b", some "pic", []⟩]
        (fun i _ => if i = 0 then .error "boom" else .ok ["u1"])).successful_results := by
  have h := batch_failure_isolation "black-forest-labs/flux-dev" none
    [⟨"a", none, []⟩, ⟨"b", some "pic", []⟩]
    (fun i _ => if i = 0 then .error "boom" else .ok ["u1"])
  exact ⟨h.1, (h.2.2 0 ⟨"a", none, []⟩ rfl).1 "boom" rfl,
    (h.2.2 1 ⟨"b", some "pic", []⟩ rfl).2 ["u1"] rfl⟩
theorem getCredentialsCore_scrub_pair
    (adminApiKey defaultReplicateKey : Option String) (hs : ReqHeaders)
    (c : Option Credentials) (extId : Option String) (cc cc' y : Option ℤ) :
    (getCredentialsCore adminApiKey defaultReplicateKey hs
        (c.map (fun cr => { cr with concurrency_limit := y })) extId cc').map
        (fun t => (t.1, t.2.1))
      = (getCredentialsCore adminApiKey defaultReplicateKey hs c extId cc).map
        (fun t => (t.1, t.2.1)) := by
  unfold getCredentialsCore
  cases c with
  | none =>
    simp only [Option.map_none']
    split
    · cases defaultReplicateKey <;> simp [Except.map]
    · cases hs.x_replicate_api_key <;> cases defaultReplicateKey <;>
        simp [Except.map, Option.bind]
  | some cr =>
    simp only [Option.map_some']
    split
    · cases defaultReplicateKey <;> simp [Except.map]
    · cases htok : cr.replicate_api_token with
      | some userKey => simp [Option.bind, htok, Except.map]
      | none =>
        cases hs.x_replicate_api_key <;> cases defaultReplicateKey <;>
          simp [Option.bind, htok, Except.map]

theorem except_pair_sync {β γ : Type} {a b : Except String (String × β × γ)}
    (h : a.map (fun t => (t.1, t.2.1)) = b.map (fun t => (t.1, t.2.1))) :
    (∃ e, a = .error e ∧ b = .error e) ∨
    (∃ k i u v, a = .ok (k, i, u) ∧ b = .ok (k, i, v)) := by
  cases a with
  | error e =>
    cases b with
    | error e' =>
      left
      simp only [Except.map, Except.error.injEq] at h
      exact ⟨e, rfl, by rw [h]⟩
    | ok t => simp [Except.map] at h
  | ok t =>
    obtain ⟨k, i, u⟩ := t
    cases b with
    | error e => simp [Except.map] at h
    | ok t' =>
      obtain ⟨k', i', v⟩ := t'
      right
      simp only [Except.map, Except.ok.injEq, Prod.mk.injEq] at h
      exact ⟨k, i, u, v, rfl, by rw [h.1, h.2]⟩

/-- C10: For every `/generate` or `/generate-batch` request, the
`concurrency_limit` supplied in the payload or inside `credentials`
has no effect on admission control or on the response: the credential
resolver returns it as the custom concurrency override, but nothing
applies it, so two requests identical except for those fields are
admitted identically (same state evolution) and produce the same
result. -/
theorem concurrency_limit_field_has_no_effect
    (adminApiKey defaultReplicateKey : Option String) (hs : ReqHeaders)
    (st : SysState) (now : ℚ) (fuel : ℕ)
    (genImage : String → String → String → List (String × String) →
      Except String (List String))
    (d : RequestData) (db : BatchRequestData) (x y : Option ℤ) :
    generateEndpoint adminApiKey defaultReplicateKey hs
        (some (setConcurrencyFields d x y)) st now fuel genImage
      = generateEndpoint adminApiKey defaultReplicateKey hs (some d)
          st now fuel genImage ∧
    generateBatchEndpoint adminApiKey defaultReplicateKey hs
        (some (setBatchConcurrencyFields db x y)) st now fuel genImage
      = generateBatchEndpoint adminApiKey defaultReplicateKey hs (some db)
          st now fuel genImage := by
  constructor
  · have hmap := getCredentialsCore_scrub_pair adminApiKey defaultReplicateKey hs
      d.credentials d.external_semaphore_id d.concurrency_limit x y
    rcases except_pair_sync hmap with ⟨e, h1, h2⟩ | ⟨k, i, u, v, h1, h2⟩
    · simp only [generateEndpoint, getCredentialsFromRequest, Option.bind,
        setConcurrencyFields, h1, h2]
    · simp only [generateEndpoint, getCredentialsFromRequest, Option.bind,
        setConcurrencyFields, h1, h2, generateKwargs]
  · have hmap := getCredentialsCore_scrub_pair adminApiKey defaultReplicateKey hs
      db.credentials db.external_semaphore_id db.concurrency_limit x y
    rcases except_pair_sync hmap with ⟨e, h1, h2⟩ | ⟨k, i, u, v, h1, h2⟩
    · simp only [generateBatchEndpoint, setBatchConcurrencyFields, h1, h2]
    · simp only [generateBatchEndpoint, setBatchConcurrencyFields, h1, h2]
      simp [normalizeTasks]
